import Mathlib

/-!
Shallow embedding of the production-build orchestration layer
(`packages/vite/src/node/build.ts`): build-option resolution, plugin pipeline
assembly, library output-target resolution, and warning classification.
-/

set_option autoImplicit false

namespace ViteBuild

/-- `LibraryFormats = 'es' | 'cjs' | 'umd' | 'iife'`. -/
inductive LibraryFormat where
  | es
  | cjs
  | umd
  | iife
  deriving DecidableEq, Repr

/-- The `sourcemap` option: `boolean | 'inline'`. -/
inductive SourcemapSetting where
  | ofBool (b : Bool)
  | inline
  deriving DecidableEq, Repr

/-- The `minify` option as it can actually arrive at runtime: the declared
type is `boolean | 'terser' | 'esbuild'`, but the code defensively checks
for the string `'false'` (cast through `any`), so the embedding carries an
arbitrary string alternative. -/
inductive MinifySetting where
  | ofBool (b : Bool)
  | ofStr (s : String)
  deriving DecidableEq, Repr

/-- JavaScript truthiness of a `MinifySetting` (`false` and `''` are falsy). -/
def MinifySetting.truthy : MinifySetting → Bool
  | .ofBool b => b
  | .ofStr s => !s.isEmpty

/-- Opaque stand-in for `Terser.MinifyOptions` (passed through untouched). -/
structure TerserOptions where
  raw : List (String × String) := []
  deriving DecidableEq, Repr

/-- Opaque stand-in for a user-supplied rollup plugin object. -/
structure UserPlugin where
  tag : Nat
  deriving DecidableEq, Repr

/-- One rollup `OutputOptions` record, restricted to the fields this file
touches (`format`) plus representative passenger fields, so that
"copied with only `format` replaced" is observable. -/
structure OutputOptions where
  format : Option LibraryFormat := none
  name : Option String := none
  dir : Option String := none
  entryFileNames : Option String := none
  deriving DecidableEq, Repr

/-- The `rollupOptions.output` value: `OutputOptions | OutputOptions[] | undefined`. -/
inductive OutputsArg where
  | undefined
  | single (o : OutputOptions)
  | many (os : List OutputOptions)
  deriving DecidableEq, Repr

/-- `RollupOptions`, restricted to the fields the build layer reads
(`input`, `plugins`, `output`, `onwarn`).  The `onwarn` callback is modelled
by its presence, since only presence is branched on. -/
structure RollupOptions where
  input : Option String := none
  plugins : Option (List UserPlugin) := none
  output : OutputsArg := .undefined
  hasOnWarn : Bool := false
  deriving DecidableEq, Repr

/-- `LibraryOptions`: entry module, optional UMD global name, optional
explicit format list. -/
structure LibraryOptions where
  entry : String
  name : Option String := none
  formats : Option (List LibraryFormat) := none
  deriving DecidableEq, Repr

/-- The `lib` option: `LibraryOptions | false`. -/
inductive LibSetting where
  | disabled
  | lib (o : LibraryOptions)
  deriving DecidableEq, Repr

/-- `BuildOptions`: the raw user-supplied record, every field optional. -/
structure BuildOptions where
  base : Option String := none
  outDir : Option String := none
  assetsDir : Option String := none
  assetsInlineLimit : Option Nat := none
  cssCodeSplit : Option Bool := none
  sourcemap : Option SourcemapSetting := none
  minify : Option MinifySetting := none
  terserOptions : Option TerserOptions := none
  rollupOptions : Option RollupOptions := none
  write : Option Bool := none
  manifest : Option Bool := none
  lib : Option LibSetting := none
  deriving DecidableEq, Repr

/-- `Required<BuildOptions>`: every field populated. -/
structure ResolvedBuildOptions where
  base : String
  outDir : String
  assetsDir : String
  assetsInlineLimit : Nat
  cssCodeSplit : Bool
  sourcemap : SourcemapSetting
  minify : MinifySetting
  terserOptions : TerserOptions
  rollupOptions : RollupOptions
  write : Bool
  manifest : Bool
  lib : LibSetting
  deriving DecidableEq, Repr

/-- The base normalization `resolved.base.replace(...)` with the regex
pattern `([^/])$` and replacement `$1/`: the pattern matches exactly when the
string has a final character that is not `/`; the replacement keeps that
character and appends one `/`.  The empty string matches nothing and is left
unchanged. -/
def ensureTrailingSlash (s : String) : String :=
  match s.data.getLast? with
  | some c => if c = '/' then s else s ++ "/"
  | none => s

/-- `if ((resolved.minify as any) === 'false') resolved.minify = false`. -/
def normalizeMinify (m : MinifySetting) : MinifySetting :=
  if m = .ofStr "false" then .ofBool false else m

/-- `resolveBuildOptions(raw?: BuildOptions): Required<BuildOptions>` —
defaults overlaid by every present field of `raw`, then the base-slash
normalization and the `'false'` minify coercion. -/
def resolveBuildOptions (raw : Option BuildOptions) : ResolvedBuildOptions :=
  let r := raw.getD {}
  let resolved : ResolvedBuildOptions :=
    { base := r.base.getD "/"
      outDir := r.outDir.getD "dist"
      assetsDir := r.assetsDir.getD "assets"
      assetsInlineLimit := r.assetsInlineLimit.getD 4096
      cssCodeSplit := r.cssCodeSplit.getD true
      sourcemap := r.sourcemap.getD (.ofBool false)
      rollupOptions := r.rollupOptions.getD {}
      minify := r.minify.getD (.ofStr "terser")
      terserOptions := r.terserOptions.getD {}
      write := r.write.getD true
      manifest := r.manifest.getD false
      lib := r.lib.getD .disabled }
  { resolved with
      base := ensureTrailingSlash resolved.base
      minify := normalizeMinify resolved.minify }

/-- Re-reading a `Required<BuildOptions>` as a `BuildOptions` (in TypeScript
this is a plain subtype coercion: every field is present). -/
def ResolvedBuildOptions.toRaw (o : ResolvedBuildOptions) : BuildOptions :=
  { base := some o.base
    outDir := some o.outDir
    assetsDir := some o.assetsDir
    assetsInlineLimit := some o.assetsInlineLimit
    cssCodeSplit := some o.cssCodeSplit
    sourcemap := some o.sourcemap
    minify := some o.minify
    terserOptions := some o.terserOptions
    rollupOptions := some o.rollupOptions
    write := some o.write
    manifest := some o.manifest
    lib := some o.lib }

/-- The slice of `ResolvedConfig` that `resolveBuildPlugins` reads:
`config.build` and `config.logLevel` (the remaining fields — `root`,
`logger`, the composed plugin list — are only forwarded to collaborators). -/
structure ResolvedConfig where
  root : String := ""
  logLevel : Option String := none
  build : ResolvedBuildOptions
  deriving DecidableEq, Repr

/-- One entry of the plugin pipeline.  The built-in policy plugins are
constants produced by external factories; user plugins stay opaque. -/
inductive BuildPlugin where
  | user (p : UserPlugin)
  | commonjs
  | buildHtml
  | buildDefine
  | dynamicImportVars
  | buildEsbuild
  | terser (opts : TerserOptions)
  | manifest
  | reporter
  deriving DecidableEq, Repr

/-- JavaScript truthiness of an optional string (`undefined` and `''` falsy). -/
def strTruthy : Option String → Bool
  | none => false
  | some s => !s.isEmpty

/-- `resolveBuildPlugins(config: ResolvedConfig): Plugin[]` — user rollup
plugins first, then the fixed policy plugins, then the three conditional
tail plugins (terser, manifest, reporter). -/
def resolveBuildPlugins (config : ResolvedConfig) : List BuildPlugin :=
  let options := config.build
  ((options.rollupOptions.plugins.getD []).map .user)
    ++ [.commonjs, .buildHtml, .buildDefine, .dynamicImportVars, .buildEsbuild]
    ++ (if options.minify.truthy ∧ options.minify ≠ .ofStr "esbuild"
        then [.terser options.terserOptions] else [])
    ++ (if options.manifest then [.manifest] else [])
    ++ (if ¬ strTruthy config.logLevel ∨ config.logLevel = some "info"
        then [.reporter] else [])

/-- Result of `resolveBuildOutputs` on the success path: the outputs value
returned, plus whether `logger.warn` was invoked (the
formats-ignored notice). -/
structure OutputsResult where
  outputs : OutputsArg
  warned : Bool
  deriving DecidableEq, Repr

/-- `resolveBuildOutputs(outputs, libOptions, logger)`.  Throwing the
`build.lib.name` configuration error is modelled by `Except.error` carrying
the thrown message; `logger.warn` by the `warned` flag of the result. -/
def resolveBuildOutputs (outputs : OutputsArg) (libOptions : LibSetting) :
    Except String OutputsResult :=
  match libOptions with
  | .lib lib =>
    let formats := lib.formats.getD [.es, .umd]
    if (formats.contains .umd ∨ formats.contains .iife) ∧ ¬ strTruthy lib.name then
      .error ("Option \"build.lib.name\" is required when output formats "
        ++ "include \"umd\" or \"iife\".")
    else
      match outputs with
      | .undefined => .ok ⟨.many (formats.map fun format => { format := some format }), false⟩
      | .single o => .ok ⟨.many (formats.map fun format => { o with format := some format }), false⟩
      | .many os =>
        if lib.formats.isSome then
          .ok ⟨.many os, true⟩
        else
          .ok ⟨.many os, false⟩
  | .disabled => .ok ⟨outputs, false⟩

/-- A rollup warning event, restricted to the fields `onRollupWarning`
reads (`code`, `message`, `source`, `importer`, `plugin`) plus the
diagnostic passenger fields (`loc`, `frame`). -/
structure RollupWarning where
  code : Option String := none
  message : String := ""
  source : Option String := none
  importer : Option String := none
  plugin : Option String := none
  loc : Option (Nat × Nat) := none
  frame : Option String := none
  deriving DecidableEq, Repr

/-- Node.js built-in module names, as recognized by the external
`isbuiltin` package (Node's documented built-in module list). -/
def nodeBuiltins : List String :=
  ["assert", "async_hooks", "buffer", "child_process", "cluster", "console",
   "constants", "crypto", "dgram", "dns", "domain", "events", "fs", "http",
   "http2", "https", "inspector", "module", "net", "os", "path", "perf_hooks",
   "process", "punycode", "querystring", "readline", "repl", "stream",
   "string_decoder", "timers", "tls", "trace_events", "tty", "url", "util",
   "v8", "vm", "worker_threads", "zlib"]

/-- `isBuiltin(id)` from the external `isbuiltin` package. -/
def isBuiltin (id : String) : Bool :=
  nodeBuiltins.contains id

/-- `chalk.yellow`: terminal coloring only; the textual content is the
argument itself (color escape codes abstracted away). -/
def chalkYellow (s : String) : String := s

/-- `chalk.gray`: terminal coloring only, content preserved. -/
def chalkGray (s : String) : String := s

/-- Template-literal interpolation of a possibly-undefined string:
JavaScript renders `undefined` as the text `undefined`. -/
def jsStr : Option String → String
  | none => "undefined"
  | some s => s

/-- `message.includes(sub)`. -/
def strIncludes (s sub : String) : Bool :=
  decide (sub.data <:+: s.data)

def warningIgnoreList : List String :=
  ["CIRCULAR_DEPENDENCY", "THIS_IS_UNDEFINED"]

def dynamicImportWarningIgnoreList : List String :=
  ["Unsupported expression", "statically analyzed"]

/-- The observable outcome of one `onRollupWarning` call: return without
doing anything, call `userOnWarn(warning, warn)`, call `warn(warning)`, or
`throw new Error(msg)`. -/
inductive WarnAction where
  | suppressed
  | forwardedToUser
  | forwardedToDefault
  | escalated (msg : String)
  deriving DecidableEq, Repr

/-- `onRollupWarning(warning, warn, allowNodeBuiltins, userOnWarn)`.
The handlers are modelled by which one the function invokes
(`hasUserOnWarn` records whether `userOnWarn` was supplied); the
`lookupFile(importer, [package.json])` + `JSON.parse(...).name` disk read is
modelled by the oracle `readPkgName`, returning the manifest's `name`
field when the manifest exists and has one. -/
def onRollupWarning (warning : RollupWarning) (allowNodeBuiltins : List String)
    (hasUserOnWarn : Bool) (readPkgName : String → Option String) : WarnAction :=
  if warning.code = some "UNRESOLVED_IMPORT" then
    let id := warning.source
    let importer := warning.importer
    if strTruthy id ∧ isBuiltin (jsStr id) then
      let pkgName : Option String :=
        if strTruthy importer then readPkgName (jsStr importer) else none
      let importingDep : Option String :=
        if strTruthy pkgName then pkgName else none
      if strTruthy importingDep ∧ (jsStr importingDep) ∈ allowNodeBuiltins then
        .suppressed
      else
        let dep := if strTruthy importingDep
          then "Dependency " ++ chalkYellow (jsStr importingDep)
          else "A dependency"
        .escalated (dep ++ " is attempting to import Node built-in module "
          ++ chalkYellow (jsStr id) ++ ".\n"
          ++ "This will not work in a browser environment.\n"
          ++ "Imported by: " ++ chalkGray (jsStr importer))
    else
      .escalated ("[vite]: Rollup failed to resolve import \"" ++ jsStr warning.source
        ++ "\" from \"" ++ jsStr warning.importer ++ "\".\n"
        ++ "This is most likely unintended because it can break your application at runtime.\n"
        ++ "If you do want to externalize this module explicitly add it to\n"
        ++ "`rollupInputOptions.external`")
  else if warning.plugin = some "rollup-plugin-dynamic-import-variables"
      ∧ dynamicImportWarningIgnoreList.any (fun msg => strIncludes warning.message msg) then
    .suppressed
  else if (match warning.code with
           | some c => warningIgnoreList.contains c
           | none => false) then
    .suppressed
  else if hasUserOnWarn then
    .forwardedToUser
  else
    .forwardedToDefault

/-! ### Helper lemmas -/

theorem data_append_slash (s : String) : (s ++ "/").data = s.data ++ ['/'] :=
  String.data_append s "/"

theorem getLast_append_slash (s : String) :
    (s ++ "/").data.getLast? = some '/' := by
  rw [data_append_slash]
  exact List.getLast?_concat _

theorem ensureTrailingSlash_idem (s : String) :
    ensureTrailingSlash (ensureTrailingSlash s) = ensureTrailingSlash s := by
  cases h : s.data.getLast? with
  | none => simp [ensureTrailingSlash, h]
  | some c =>
    by_cases hc : c = '/'
    · simp [ensureTrailingSlash, h, hc]
    · simp [ensureTrailingSlash, h, hc, getLast_append_slash]

theorem normalizeMinify_idem (m : MinifySetting) :
    normalizeMinify (normalizeMinify m) = normalizeMinify m := by
  unfold normalizeMinify
  by_cases h : m = .ofStr "false" <;> simp [h]

theorem normalizeMinify_ne_false_str (m : MinifySetting) :
    normalizeMinify m ≠ .ofStr "false" := by
  unfold normalizeMinify
  by_cases h : m = .ofStr "false" <;> simp [h]

theorem strTruthy_some_of_ne (s : String) (h : s ≠ "") :
    strTruthy (some s) = true := by
  have hb : s.isEmpty = false := by
    cases hb : s.isEmpty
    · rfl
    · exact absurd ((String.isEmpty_iff s).mp hb) h
  simp [strTruthy, hb]

theorem isBuiltin_ne_empty (id : String) (h : isBuiltin id = true) : id ≠ "" := by
  intro he
  subst he
  exact absurd h (by decide)

/-! ### Claim theorems -/

/-- C8: a raw `minify` equal to the literal string `'false'` resolves to the
boolean `false`, and no resolved options record ever carries the string
`'false'` as its `minify` value. -/
theorem minify_false_string_coerced :
    (∀ raw : BuildOptions,
      (resolveBuildOptions (some { raw with minify := some (.ofStr "false") })).minify
        = .ofBool false)
    ∧ ∀ raw : Option BuildOptions,
      (resolveBuildOptions raw).minify ≠ .ofStr "false" := by
  constructor
  · intro raw
    simp [resolveBuildOptions, normalizeMinify]
  · intro raw
    simpa [resolveBuildOptions] using normalizeMinify_ne_false_str _

/-- C10: `resolveBuildOptions` is idempotent — feeding its own result back
in (as the raw record with every field present) returns the same resolved
record. -/
theorem resolveBuildOptions_idem (raw : Option BuildOptions) :
    resolveBuildOptions (some (resolveBuildOptions raw).toRaw)
      = resolveBuildOptions raw := by
  simp [resolveBuildOptions, ResolvedBuildOptions.toRaw,
    ensureTrailingSlash_idem, normalizeMinify_idem]

/-- C3 counterexample: the empty base string does not end in a path
separator, yet resolution returns it unchanged — the result ends in no
separator at all, so the claim fails at `base = ""`. -/
theorem base_empty_not_normalized_cex :
    (resolveBuildOptions (some { base := some "" })).base = ""
    ∧ ("" : String).data.getLast? ≠ some '/' := by
  constructor
  · rfl
  · decide

/-- C3 (amended to nonempty base strings): a nonempty raw base not ending in
a separator resolves to the original string with exactly one separator
appended (so the original trailing non-separator character is preserved just
before the final `/`), and a base already ending in a separator is returned
unchanged. -/
theorem base_normalization (raw : BuildOptions) (s : String) (hs : raw.base = some s) :
    (s ≠ "" → s.data.getLast? ≠ some '/' →
      (resolveBuildOptions (some raw)).base = s ++ "/"
        ∧ (resolveBuildOptions (some raw)).base.data.getLast? = some '/'
        ∧ (resolveBuildOptions (some raw)).base.data.dropLast = s.data)
    ∧ (s.data.getLast? = some '/' → (resolveBuildOptions (some raw)).base = s) := by
  have hbase : (resolveBuildOptions (some raw)).base = ensureTrailingSlash s := by
    simp [resolveBuildOptions, hs]
  constructor
  · intro hne hlast
    obtain ⟨c, hc⟩ : ∃ c, s.data.getLast? = some c := by
      cases h : s.data.getLast? with
      | none =>
        exfalso
        apply hne
        apply String.ext
        show s.data = "".data
        simpa using h
      | some c => exact ⟨c, rfl⟩
    have hcne : c ≠ '/' := fun h => hlast (h ▸ hc)
    have hslash : (resolveBuildOptions (some raw)).base = s ++ "/" := by
      rw [hbase]
      simp [ensureTrailingSlash, hc, hcne]
    refine ⟨hslash, ?_, ?_⟩
    · rw [hslash]
      exact getLast_append_slash s
    · rw [hslash, data_append_slash]
      simp
  · intro hlast
    rw [hbase]
    simp [ensureTrailingSlash, hlast]

/-- C3 witness: `"/app"` resolves to `"/app/"`. -/
theorem base_normalization_witness :
    (resolveBuildOptions (some { base := some "/app" })).base = "/app/" :=
  ((base_normalization { base := some "/app" } "/app" rfl).1 (by decide) (by decide)).1

/-- C2: whenever the requested format set (explicit formats, else the
default pair `[es, umd]`) contains `umd` or `iife` and no name is set, the
output resolver throws the `build.lib.name` configuration error; the same
spec with a (nonempty) name set never throws. -/
theorem lib_name_validation (o : OutputsArg) (entry : String)
    (fs : Option (List LibraryFormat))
    (hfmt : (fs.getD [.es, .umd]).contains .umd = true
      ∨ (fs.getD [.es, .umd]).contains .iife = true) :
    (∃ msg, resolveBuildOutputs o (.lib { entry := entry, formats := fs })
        = .error msg)
    ∧ ∀ nm : String, nm ≠ "" →
      ∃ r, resolveBuildOutputs o (.lib { entry := entry, name := some nm, formats := fs })
        = .ok r := by
  constructor
  · refine ⟨"Option \"build.lib.name\" is required when output formats "
      ++ "include \"umd\" or \"iife\".", ?_⟩
    simp only [resolveBuildOutputs]
    rw [if_pos ⟨hfmt, by simp [strTruthy]⟩]
  · intro nm hnm
    simp only [resolveBuildOutputs]
    rw [if_neg]
    · cases o with
      | undefined => exact ⟨_, rfl⟩
      | single o => exact ⟨_, rfl⟩
      | many os =>
        by_cases h : fs.isSome <;> simp [h]
    · rintro ⟨-, hno⟩
      exact hno (strTruthy_some_of_ne nm hnm)

/-- C2 witness: `formats = [umd]` with no name errors; the same with the
name `MyLib` succeeds. -/
theorem lib_name_validation_witness :
    (∃ msg, resolveBuildOutputs .undefined
        (.lib { entry := "src/main.ts", formats := some [.umd] }) = .error msg)
    ∧ ∃ r, resolveBuildOutputs .undefined
        (.lib { entry := "src/main.ts", name := some "MyLib", formats := some [.umd] })
        = .ok r := by
  have h := lib_name_validation .undefined "src/main.ts" (some [.umd]) (by decide)
  exact ⟨h.1, h.2 "MyLib" (by decide)⟩

/-- C4: in library mode with a (nonempty) name and explicit formats, an
absent user override yields one default target per format, and a single
override target yields one copy per format with only the `format` field
replaced — targets appear in the order of the requested formats, and
distinct formats give targets with pairwise-distinct formats. -/
theorem lib_output_fanout (entry nm : String) (hnm : nm ≠ "")
    (fs : List LibraryFormat) (o : OutputOptions) :
    resolveBuildOutputs .undefined (.lib { entry := entry, name := some nm, formats := some fs })
      = .ok ⟨.many (fs.map fun f => { format := some f }), false⟩
    ∧ resolveBuildOutputs (.single o)
        (.lib { entry := entry, name := some nm, formats := some fs })
      = .ok ⟨.many (fs.map fun f => { o with format := some f }), false⟩
    ∧ (fs.map fun f => ({ o with format := some f } : OutputOptions)).length = fs.length
    ∧ (fs.map fun f => ({ o with format := some f } : OutputOptions)).map OutputOptions.format
      = fs.map some
    ∧ (fs.Nodup →
      ((fs.map fun f => ({ o with format := some f } : OutputOptions)).map
        OutputOptions.format).Nodup) := by
  have hname : ¬ ((fs.contains .umd = true ∨ fs.contains .iife = true)
      ∧ ¬ strTruthy (some nm) = true) := by
    rintro ⟨-, hno⟩
    exact hno (strTruthy_some_of_ne nm hnm)
  refine ⟨?_, ?_, by simp, ?_, ?_⟩
  · simp only [resolveBuildOutputs, Option.getD_some]
    rw [if_neg hname]
  · simp only [resolveBuildOutputs, Option.getD_some]
    rw [if_neg hname]
  · simp [List.map_map, Function.comp]
  · intro hnd
    rw [List.map_map]
    apply List.Nodup.map ?_ hnd
    intro a b hab
    simpa [Function.comp] using hab

/-- C4 witness: the three formats `[es, cjs, umd]` with a name produce
exactly three targets whose formats are those three, in order. -/
theorem lib_output_fanout_witness :
    resolveBuildOutputs .undefined
      (.lib { entry := "src/main.ts", name := some "MyLib",
              formats := some [.es, .cjs, .umd] })
      = .ok ⟨.many [{ format := some .es }, { format := some .cjs },
                    { format := some .umd }], false⟩ :=
  (lib_output_fanout "src/main.ts" "MyLib" (by decide) [.es, .cjs, .umd] {}).1

/-- C9: an explicitly empty `formats` list is kept (an empty array is
truthy, so the default pair is not substituted), the umd/iife validation
passes vacuously even with no name, and with no user override the resolver
returns an empty target list — zero generation calls. -/
theorem lib_empty_formats (entry : String) (nm : Option String) :
    resolveBuildOutputs .undefined (.lib { entry := entry, name := nm, formats := some [] })
      = .ok ⟨.many [], false⟩ := by
  simp [resolveBuildOutputs]

/-- C1: an `UNRESOLVED_IMPORT` warning for the built-in module `fs` with no
importer and an empty allow-list always escalates to a thrown error whose
message mentions `fs` — it is never suppressed nor forwarded to the user or
default handler, whatever the message, plugin, location, frame, handler
presence, or manifest contents. -/
theorem unresolved_fs_escalates (msg : String) (plg frm : Option String)
    (loc : Option (Nat × Nat)) (hasUser : Bool) (pkg : String → Option String) :
    ∃ m, onRollupWarning
        { code := some "UNRESOLVED_IMPORT", message := msg, source := some "fs",
          importer := none, plugin := plg, loc := loc, frame := frm }
        [] hasUser pkg
      = .escalated m ∧ strIncludes m "fs" = true := by
  refine ⟨"A dependency is attempting to import Node built-in module fs.\n"
    ++ "This will not work in a browser environment.\n"
    ++ "Imported by: undefined", rfl, by decide⟩

/-- C5: an `UNRESOLVED_IMPORT` warning for a built-in module whose importer
resolves (via the nearest `package.json`) to a package name contained in the
allow-list returns silently: no throw, no user handler, no default
handler. -/
theorem unresolved_builtin_allowlisted (id imp nm msg : String)
    (plg frm : Option String) (loc : Option (Nat × Nat))
    (allow : List String) (hasUser : Bool) (pkg : String → Option String)
    (hid : isBuiltin id = true) (himp : imp ≠ "")
    (hpkg : pkg imp = some nm) (hnm : nm ≠ "") (hallow : nm ∈ allow) :
    onRollupWarning
        { code := some "UNRESOLVED_IMPORT", message := msg, source := some id,
          importer := some imp, plugin := plg, loc := loc, frame := frm }
        allow hasUser pkg
      = .suppressed := by
  have h1 : strTruthy (some id) = true :=
    strTruthy_some_of_ne id (isBuiltin_ne_empty id hid)
  have h2 : strTruthy (some imp) = true := strTruthy_some_of_ne imp himp
  have h3 : strTruthy (some nm) = true := strTruthy_some_of_ne nm hnm
  simp [onRollupWarning, jsStr, h1, h2, h3, hpkg, hid, hallow]

/-- C5 witness: the `fs` import from an allow-listed dependency `legacy-dep`
is suppressed. -/
theorem unresolved_builtin_allowlisted_witness :
    onRollupWarning
        { code := some "UNRESOLVED_IMPORT", source := some "fs",
          importer := some "/proj/node_modules/legacy-dep/index.js" }
        ["legacy-dep"] false (fun _ => some "legacy-dep")
      = .suppressed :=
  unresolved_builtin_allowlisted "fs" "/proj/node_modules/legacy-dep/index.js"
    "legacy-dep" "" none none none ["legacy-dep"] false (fun _ => some "legacy-dep")
    (by decide) (by decide) rfl (by decide) (by decide)

/-- C6: a `CIRCULAR_DEPENDENCY` warning is suppressed regardless of every
other field — never thrown, never forwarded to the user handler, never
forwarded to the default handler. -/
theorem circular_dependency_suppressed (msg : String)
    (src imp plg frm : Option String) (loc : Option (Nat × Nat))
    (allow : List String) (hasUser : Bool) (pkg : String → Option String) :
    onRollupWarning
        { code := some "CIRCULAR_DEPENDENCY", message := msg, source := src,
          importer := imp, plugin := plg, loc := loc, frame := frm }
        allow hasUser pkg
      = .suppressed := by
  simp only [onRollupWarning]
  rw [if_neg (by decide)]
  split
  · rfl
  · rw [if_pos (by decide)]

theorem resolveBuildPlugins_terser_iff (config : ResolvedConfig) :
    (∃ t, BuildPlugin.terser t ∈ resolveBuildPlugins config)
      ↔ (config.build.minify.truthy = true ∧ config.build.minify ≠ .ofStr "esbuild") := by
  constructor
  · rintro ⟨t, ht⟩
    by_contra hc
    unfold resolveBuildPlugins at ht
    simp only [] at ht
    rw [if_neg hc] at ht
    by_cases hm : config.build.manifest = true <;>
      by_cases hr : (¬ strTruthy config.logLevel = true ∨ config.logLevel = some "info") <;>
      simp [hm, hr] at ht
  · intro hc
    refine ⟨config.build.terserOptions, ?_⟩
    unfold resolveBuildPlugins
    simp only []
    rw [if_pos hc]
    simp

/-- C7: over the declared type of the `minify` option
(`boolean | 'terser' | 'esbuild'`), the assembled plugin pipeline contains
the terser plugin exactly when minification is enabled (not `false`) and the
selected minifier is not `'esbuild'`. -/
theorem terser_plugin_iff (config : ResolvedConfig)
    (h : config.build.minify = .ofBool false ∨ config.build.minify = .ofBool true
      ∨ config.build.minify = .ofStr "terser" ∨ config.build.minify = .ofStr "esbuild") :
    (∃ t, BuildPlugin.terser t ∈ resolveBuildPlugins config)
      ↔ (config.build.minify ≠ .ofBool false
          ∧ config.build.minify ≠ .ofStr "esbuild") := by
  rw [resolveBuildPlugins_terser_iff]
  obtain h | h | h | h := h <;> rw [h] <;> decide

/-- C7 witness: with the default resolved options (minify `'terser'`) the
pipeline contains the terser plugin. -/
theorem terser_plugin_iff_witness :
    ∃ t, BuildPlugin.terser t ∈ resolveBuildPlugins { build := resolveBuildOptions none } :=
  (terser_plugin_iff { build := resolveBuildOptions none }
    (by right; right; left; rfl)).mpr (by decide)

end ViteBuild
